import Mathlib

/-!
Shallow embedding of `src/clients/github_client.py` (class `GithubClient`).

The external world is explicit:
- raw HTTP traffic (`requests.get` / `requests.post`) is a function from the
  request that the code builds to either a response or a raised
  request-level exception;
- the PyGithub library surface used by the code is a record of functions,
  each returning a value or a raised exception.

Every method of the class becomes a Lean function returning a `Result`:
the value or the exception it raises, the sequence of log records it emits,
and the exact HTTP requests and library calls it issues.  Machine behaviour
that the claims talk about (headers, URLs, timeouts, swallow-vs-raise,
logging, JSON reshaping) is translated line by line from the source.
-/

set_option autoImplicit false

namespace GhSpec

/-- JSON values, for HTTP request/response bodies. -/
inductive Json where
  | null : Json
  | bool (b : Bool) : Json
  | num (n : Int) : Json
  | str (s : String) : Json
  | arr (elems : List Json) : Json
  | obj (fields : List (String × Json)) : Json

/-- Python exceptions that the embedded code can raise. -/
inductive Err where
  /-- `requests.exceptions.HTTPError`, raised by `raise_for_status` on a 4xx/5xx status. -/
  | httpError (status : Nat)
  /-- a network-level `requests` failure (connection error, timeout, ...). -/
  | connectionError (msg : String)
  /-- an exception raised by a PyGithub library call (auth failure, not-found, ...). -/
  | libError (msg : String)
  /-- `KeyError` from indexing a dict with a missing key. -/
  | keyError (key : String)
  /-- `TypeError` from using a value at the wrong type. -/
  | typeError
  /-- `requests.exceptions.JSONDecodeError` from `response.json()` on a non-JSON body. -/
  | jsonError
deriving DecidableEq

/-- Whether an exception is an instance of `requests.RequestException`
(the class caught by `except requests.RequestException` clauses). -/
def Err.isRequestException : Err → Bool
  | .httpError _ => true
  | .connectionError _ => true
  | .jsonError => true
  | .libError _ => false
  | .keyError _ => false
  | .typeError => false

/-- Rendering of an exception by `%s` formatting in a log call. -/
def errMsg : Err → String
  | .httpError s => "HTTPError: " ++ toString s
  | .connectionError m => "ConnectionError: " ++ m
  | .libError m => m
  | .keyError k => "KeyError: " ++ k
  | .typeError => "TypeError"
  | .jsonError => "JSONDecodeError"

/-- An HTTP request as assembled by the code before handing it to `requests`. -/
structure HttpRequest where
  method : String
  url : String
  headers : List (String × String)
  timeout : Option Nat
  body : Option Json

/-- An HTTP response: status code, body text, and the result of parsing the
body as JSON (`none` when the body is not valid JSON). -/
structure HttpResponse where
  status : Nat
  text : String
  json : Option Json

/-- The HTTP side of the world: what `requests` returns (or raises) for a request. -/
abbrev Http := HttpRequest → Except Err HttpResponse

/-- The process environment, as read by `os.getenv`. -/
abbrev Env := String → Option String

/-- Python str() of an `os.getenv` result as interpolated into an f-string:
an unset variable renders as the string None. -/
def optStr : Option String → String
  | some s => s
  | none => "None"

/-- `response.raise_for_status()`: raises `HTTPError` on a 4xx/5xx status. -/
def raiseForStatus (r : HttpResponse) : Except Err Unit :=
  if 400 ≤ r.status then .error (.httpError r.status) else .ok ()

/-- `response.json()`: the parsed body, or a raised `JSONDecodeError`. -/
def pyJson (r : HttpResponse) : Except Err Json :=
  match r.json with
  | some j => .ok j
  | none => .error .jsonError

/-- A `github.Github(...)` client handle, wrapping the constructor token. -/
structure GhHandle where
  token : String
deriving DecidableEq

/-- An opaque repository handle returned by `client.get_repo`. -/
structure Repo where
  repoId : Nat
deriving DecidableEq

/-- An opaque pull-request handle returned by `repo.get_pull`. -/
structure PullRequest where
  prNumber : Int
deriving DecidableEq

/-- An opaque issue-comment handle from the library. -/
structure IssueComment where
  commentId : Nat
deriving DecidableEq

/-- A commit handle: the code only reads `commit.sha` and `commit.files`. -/
structure Commit where
  sha : String
deriving DecidableEq

/-- A file-change record from `commit.files`. -/
structure CommitFile where
  filename : String
deriving DecidableEq

/-- A review handle returned by `pr.create_review` / `pr.get_reviews`. -/
structure Review where
  body : String
  event : String
deriving DecidableEq

/-- One record emitted through `logging`. -/
inductive LogEntry where
  | info (msg : String)
  | error (msg : String)
deriving DecidableEq

/-- A call into the PyGithub library surface, with the exact arguments passed. -/
inductive LibCall where
  | getRepo (h : GhHandle) (name : Option String)
  | getPull (r : Repo) (prId : Int)
  | getIssueComments (pr : PullRequest)
  | createIssueComment (pr : PullRequest) (body : String)
  | getReviews (pr : PullRequest)
  | createReview (pr : PullRequest) (body : String) (event : String)
  | getContents (r : Repo) (filename : String) (ref : String)
  | commitFiles (c : Commit)
deriving DecidableEq

/-- The library side of the world: what each PyGithub call returns or raises. -/
structure LibWorld where
  getRepo : GhHandle → Option String → Except Err Repo
  getPull : Repo → Int → Except Err PullRequest
  getIssueComments : PullRequest → Except Err (List IssueComment)
  createIssueComment : PullRequest → String → Except Err IssueComment
  getReviews : PullRequest → Except Err (List Review)
  createReview : PullRequest → String → String → Except Err Review
  getContents : Repo → String → String → Except Err String
  commitFiles : Commit → Except Err (List CommitFile)

/-- The outcome of running one method: the returned value or raised exception,
the log records emitted, and the HTTP requests and library calls issued. -/
structure Result (α : Type) where
  val : Except Err α
  log : List LogEntry
  httpCalls : List HttpRequest
  libCalls : List LibCall

/-- The state of a `GithubClient` instance: exactly the attributes assigned
in `__init__` (`self.client`, `self.repo_name`, `self.repo`). -/
structure GithubClient where
  client : GhHandle
  repo_name : Option String
  repo : Repo
deriving DecidableEq

/-- Embeds `GithubClient.__init__` (github_client.py lines 21-35):
wrap the token, read `GITHUB_REPOSITORY`, resolve the repository handle;
log and re-raise on failure. -/
def GithubClient.init (lib : LibWorld) (env : Env) (token : String) :
    Result GithubClient :=
  match lib.getRepo ⟨token⟩ (env "GITHUB_REPOSITORY") with
  | .ok repo =>
      ⟨.ok ⟨⟨token⟩, env "GITHUB_REPOSITORY", repo⟩,
       [.info ("Initialized GitHub client for repository: " ++
               optStr (env "GITHUB_REPOSITORY"))],
       [], [.getRepo ⟨token⟩ (env "GITHUB_REPOSITORY")]⟩
  | .error e =>
      ⟨.error e,
       [.error ("Error initializing GitHub client: " ++ errMsg e)],
       [], [.getRepo ⟨token⟩ (env "GITHUB_REPOSITORY")]⟩

/-- Embeds `GithubClient.get_pr` (lines 37-53). -/
def GithubClient.get_pr (lib : LibWorld) (self : GithubClient) (pr_id : Int) :
    Result PullRequest :=
  match lib.getPull self.repo pr_id with
  | .ok pr =>
      ⟨.ok pr,
       [.info ("Retrieved PR ID: " ++ toString pr_id)],
       [], [.getPull self.repo pr_id]⟩
  | .error e =>
      ⟨.error e,
       [.error ("Error retrieving PR ID " ++ toString pr_id ++ ": " ++ errMsg e)],
       [], [.getPull self.repo pr_id]⟩

/-- Embeds `GithubClient.get_pr_comments` (lines 55-72): `get_pr` then
`pr.get_issue_comments()`, the whole body in one try/except. -/
def GithubClient.get_pr_comments (lib : LibWorld) (self : GithubClient)
    (pr_id : Int) : Result (List IssueComment) :=
  match GithubClient.get_pr lib self pr_id with
  | ⟨.error e, lg, hc, lc⟩ =>
      ⟨.error e,
       lg ++ [.error ("Error retrieving comments for PR ID " ++ toString pr_id ++
                      ": " ++ errMsg e)],
       hc, lc⟩
  | ⟨.ok pr, lg, hc, lc⟩ =>
      match lib.getIssueComments pr with
      | .ok comments =>
          ⟨.ok comments,
           lg ++ [.info ("Retrieved comments for PR ID: " ++ toString pr_id)],
           hc, lc ++ [.getIssueComments pr]⟩
      | .error e =>
          ⟨.error e,
           lg ++ [.error ("Error retrieving comments for PR ID " ++ toString pr_id ++
                          ": " ++ errMsg e)],
           hc, lc ++ [.getIssueComments pr]⟩

/-- The request assembled by `get_comments` (lines 75-79): note the `Accept`
header value contains the header name again, exactly as in the source. -/
def commentsRequest (env : Env) (self : GithubClient) (pr_id : Int) : HttpRequest :=
  { method := "GET"
    url := "https://api.github.com/repos/" ++ optStr self.repo_name ++
           "/issues/" ++ toString pr_id ++ "/comments"
    headers := [("Authorization", "token " ++ optStr (env "GITHUB_TOKEN")),
                ("Accept", "Accept: application/vnd.github+json")]
    timeout := none
    body := none }

/-- Python `comment[key]`: field lookup in a JSON object, `KeyError` when the
key is missing, `TypeError` when the value is not a dict. -/
def jsonIndex (j : Json) (key : String) : Except Err Json :=
  match j with
  | .obj fields =>
      match fields.find? (fun p => p.1 == key) with
      | some p => .ok p.2
      | none => .error (.keyError key)
  | _ => .error .typeError

/-- Python iteration over a parsed JSON value: a list yields its elements, a
dict yields its keys, a string yields its characters; other values raise
`TypeError`. -/
def pyIter : Json → Except Err (List Json)
  | .arr elems => .ok elems
  | .obj fields => .ok (fields.map (fun p => .str p.1))
  | .str s => .ok (s.toList.map (fun c => .str (String.singleton c)))
  | _ => .error .typeError

/-- The dict comprehension body in line 84: build the two-key dict, indexing
`comment` at id then at body. -/
def reshapeComment (comment : Json) : Except Err (List (String × Json)) :=
  match jsonIndex comment "id" with
  | .error e => .error e
  | .ok vi =>
      match jsonIndex comment "body" with
      | .error e => .error e
      | .ok vb => .ok [("id", vi), ("body", vb)]

/-- Left-to-right traversal of a Python list comprehension: the first raised
exception aborts the whole comprehension. -/
def mapExcept {α β : Type} (f : α → Except Err β) : List α → Except Err (List β)
  | [] => .ok []
  | x :: xs =>
      match f x with
      | .error e => .error e
      | .ok y =>
          match mapExcept f xs with
          | .error e => .error e
          | .ok ys => .ok (y :: ys)

/-- The list comprehension of line 84 applied to the parsed response body. -/
def reshapeComments (comments : Json) : Except Err (List (List (String × Json))) :=
  match pyIter comments with
  | .error e => .error e
  | .ok elems => mapExcept reshapeComment elems

/-- Embeds `GithubClient.get_comments` (lines 74-84): raw GET, then
`raise_for_status`, then `response.json()`, then the reshaping comprehension.
No try/except and no logging anywhere in this method. -/
def GithubClient.get_comments (http : Http) (env : Env) (self : GithubClient)
    (pr_id : Int) : Result (List (List (String × Json))) :=
  match http (commentsRequest env self pr_id) with
  | .error e => ⟨.error e, [], [commentsRequest env self pr_id], []⟩
  | .ok response =>
      match raiseForStatus response with
      | .error e => ⟨.error e, [], [commentsRequest env self pr_id], []⟩
      | .ok _ =>
          match pyJson response with
          | .error e => ⟨.error e, [], [commentsRequest env self pr_id], []⟩
          | .ok comments =>
              match reshapeComments comments with
              | .error e => ⟨.error e, [], [commentsRequest env self pr_id], []⟩
              | .ok result => ⟨.ok result, [], [commentsRequest env self pr_id], []⟩

/-- Embeds `GithubClient.post_comment` (lines 86-104). -/
def GithubClient.post_comment (lib : LibWorld) (self : GithubClient)
    (pr_id : Int) (body : String) : Result IssueComment :=
  match GithubClient.get_pr lib self pr_id with
  | ⟨.error e, lg, hc, lc⟩ =>
      ⟨.error e,
       lg ++ [.error ("Error posting comment to PR ID " ++ toString pr_id ++
                      ": " ++ errMsg e)],
       hc, lc⟩
  | ⟨.ok pr, lg, hc, lc⟩ =>
      match lib.createIssueComment pr body with
      | .ok comment =>
          ⟨.ok comment,
           lg ++ [.info ("Posted comment to PR ID: " ++ toString pr_id)],
           hc, lc ++ [.createIssueComment pr body]⟩
      | .error e =>
          ⟨.error e,
           lg ++ [.error ("Error posting comment to PR ID " ++ toString pr_id ++
                          ": " ++ errMsg e)],
           hc, lc ++ [.createIssueComment pr body]⟩

/-- Embeds `GithubClient.get_commit_files` (lines 106-122): reads `commit.files`. -/
def GithubClient.get_commit_files (lib : LibWorld) (_self : GithubClient)
    (commit : Commit) : Result (List CommitFile) :=
  match lib.commitFiles commit with
  | .ok files =>
      ⟨.ok files,
       [.info ("Retrieved files for commit: " ++ commit.sha)],
       [], [.commitFiles commit]⟩
  | .error e =>
      ⟨.error e,
       [.error ("Error retrieving files for commit " ++ commit.sha ++
                ": " ++ errMsg e)],
       [], [.commitFiles commit]⟩

/-- Embeds `GithubClient.get_file_content` (lines 124-147):
`repo.get_contents(filename, ref=commit_sha)` decoded to text. -/
def GithubClient.get_file_content (lib : LibWorld) (self : GithubClient)
    (commit_sha : String) (filename : String) : Result String :=
  match lib.getContents self.repo filename commit_sha with
  | .ok content =>
      ⟨.ok content,
       [.info ("Retrieved content for file: " ++ filename ++
               " at commit: " ++ commit_sha)],
       [], [.getContents self.repo filename commit_sha]⟩
  | .error e =>
      ⟨.error e,
       [.error ("Error retrieving content for file " ++ filename ++
                " at commit " ++ commit_sha ++ ": " ++ errMsg e)],
       [], [.getContents self.repo filename commit_sha]⟩

/-- The request assembled by `get_pr_patch` (lines 158-164): diff Accept
header and a 60-second timeout. -/
def patchRequest (env : Env) (self : GithubClient) (pr_id : Int) : HttpRequest :=
  { method := "GET"
    url := "https://api.github.com/repos/" ++ optStr self.repo_name ++
           "/pulls/" ++ toString pr_id
    headers := [("Authorization", "token " ++ optStr (env "GITHUB_TOKEN")),
                ("Accept", "application/vnd.github.v3.diff")]
    timeout := some 60
    body := none }

/-- Embeds `GithubClient.get_pr_patch` (lines 148-170): raw GET with 60s
timeout, `raise_for_status`, return `response.text`; `except
requests.RequestException` logs and re-raises. -/
def GithubClient.get_pr_patch (http : Http) (env : Env) (self : GithubClient)
    (pr_id : Int) : Result String :=
  match http (patchRequest env self pr_id) with
  | .error e =>
      if e.isRequestException then
        ⟨.error e,
         [.error ("Error retrieving patch for PR ID " ++ toString pr_id ++
                  ": " ++ errMsg e)],
         [patchRequest env self pr_id], []⟩
      else
        ⟨.error e, [], [patchRequest env self pr_id], []⟩
  | .ok response =>
      match raiseForStatus response with
      | .error e =>
          if e.isRequestException then
            ⟨.error e,
             [.error ("Error retrieving patch for PR ID " ++ toString pr_id ++
                      ": " ++ errMsg e)],
             [patchRequest env self pr_id], []⟩
          else
            ⟨.error e, [], [patchRequest env self pr_id], []⟩
      | .ok _ =>
          ⟨.ok response.text,
           [.info ("Retrieved patch for PR ID: " ++ toString pr_id)],
           [patchRequest env self pr_id], []⟩

/-- Embeds `GithubClient.get_reviews` (lines 172-189). -/
def GithubClient.get_reviews (lib : LibWorld) (self : GithubClient)
    (pr_id : Int) : Result (List Review) :=
  match GithubClient.get_pr lib self pr_id with
  | ⟨.error e, lg, hc, lc⟩ =>
      ⟨.error e,
       lg ++ [.error ("Error retrieving reviews for PR ID " ++ toString pr_id ++
                      ": " ++ errMsg e)],
       hc, lc⟩
  | ⟨.ok pr, lg, hc, lc⟩ =>
      match lib.getReviews pr with
      | .ok reviews =>
          ⟨.ok reviews,
           lg ++ [.info ("Retrieved reviews for PR ID: " ++ toString pr_id)],
           hc, lc ++ [.getReviews pr]⟩
      | .error e =>
          ⟨.error e,
           lg ++ [.error ("Error retrieving reviews for PR ID " ++ toString pr_id ++
                          ": " ++ errMsg e)],
           hc, lc ++ [.getReviews pr]⟩

/-- Embeds `GithubClient.post_review` (lines 191-210): `get_pr` then
`pr.create_review(body=body, event=event)`. -/
def GithubClient.post_review (lib : LibWorld) (self : GithubClient)
    (pr_id : Int) (body : String) (event : String) : Result Review :=
  match GithubClient.get_pr lib self pr_id with
  | ⟨.error e, lg, hc, lc⟩ =>
      ⟨.error e,
       lg ++ [.error ("Error posting " ++ event.toLower ++ " review to PR ID " ++
                      toString pr_id ++ ": " ++ errMsg e)],
       hc, lc⟩
  | ⟨.ok pr, lg, hc, lc⟩ =>
      match lib.createReview pr body event with
      | .ok review =>
          ⟨.ok review,
           lg ++ [.info ("Posted " ++ event.toLower ++ " review to PR ID: " ++
                         toString pr_id)],
           hc, lc ++ [.createReview pr body event]⟩
      | .error e =>
          ⟨.error e,
           lg ++ [.error ("Error posting " ++ event.toLower ++ " review to PR ID " ++
                          toString pr_id ++ ": " ++ errMsg e)],
           hc, lc ++ [.createReview pr body event]⟩

/-- `post_review` with the `event` parameter omitted: the Python default is
the string COMMENT. -/
def GithubClient.post_review_default (lib : LibWorld) (self : GithubClient)
    (pr_id : Int) (body : String) : Result Review :=
  GithubClient.post_review lib self pr_id body "COMMENT"

/-- The request assembled by `dismiss_review` (lines 223-230): POST with the
fixed dismissal message and the given reason in the JSON payload. -/
def dismissRequest (env : Env) (self : GithubClient) (pr_id : Int)
    (review_id : Int) (reason : String) : HttpRequest :=
  { method := "POST"
    url := "https://api.github.com/repos/" ++ optStr self.repo_name ++
           "/pulls/" ++ toString pr_id ++ "/reviews/" ++ toString review_id ++
           "/dismissals"
    headers := [("Authorization", "token " ++ optStr (env "GITHUB_TOKEN")),
                ("Accept", "application/vnd.github+json"),
                ("Content-Type", "application/json")]
    timeout := none
    body := some (.obj
      [("message", .str "This review has been superseded by a newer review."),
       ("dismissal_reason", .str reason)]) }

/-- Embeds `GithubClient.dismiss_review` (lines 212-238): raw POST,
`raise_for_status`, return True; `except requests.RequestException` logs and
returns False instead of re-raising. -/
def GithubClient.dismiss_review (http : Http) (env : Env) (self : GithubClient)
    (pr_id : Int) (review_id : Int) (reason : String) : Result Bool :=
  match http (dismissRequest env self pr_id review_id reason) with
  | .error e =>
      if e.isRequestException then
        ⟨.ok false,
         [.error ("Error dismissing review ID " ++ toString review_id ++
                  " for PR ID " ++ toString pr_id ++ ": " ++ errMsg e)],
         [dismissRequest env self pr_id review_id reason], []⟩
      else
        ⟨.error e, [], [dismissRequest env self pr_id review_id reason], []⟩
  | .ok response =>
      match raiseForStatus response with
      | .error e =>
          if e.isRequestException then
            ⟨.ok false,
             [.error ("Error dismissing review ID " ++ toString review_id ++
                      " for PR ID " ++ toString pr_id ++ ": " ++ errMsg e)],
             [dismissRequest env self pr_id review_id reason], []⟩
          else
            ⟨.error e, [], [dismissRequest env self pr_id review_id reason], []⟩
      | .ok _ =>
          ⟨.ok true,
           [.info ("Dismissed review ID " ++ toString review_id ++
                   " for PR ID " ++ toString pr_id ++ " with reason: " ++ reason)],
           [dismissRequest env self pr_id review_id reason], []⟩

/-- `dismiss_review` with the `reason` parameter omitted: the Python default
is the string OUT_OF_DATE. -/
def GithubClient.dismiss_review_default (http : Http) (env : Env)
    (self : GithubClient) (pr_id : Int) (review_id : Int) : Result Bool :=
  GithubClient.dismiss_review http env self pr_id review_id "OUT_OF_DATE"

/-- One invocation of a method of the client, with its arguments. -/
inductive Op where
  | opGetPr (pr_id : Int)
  | opGetPrComments (pr_id : Int)
  | opGetComments (pr_id : Int)
  | opPostComment (pr_id : Int) (body : String)
  | opGetCommitFiles (commit : Commit)
  | opGetFileContent (commit_sha : String) (filename : String)
  | opGetPrPatch (pr_id : Int)
  | opGetReviews (pr_id : Int)
  | opPostReview (pr_id : Int) (body : String) (event : String)
  | opDismissReview (pr_id : Int) (review_id : Int) (reason : String)

/-- The value returned by an invocation, over all methods. -/
inductive OpVal where
  | vPr (p : PullRequest)
  | vComments (cs : List IssueComment)
  | vDicts (ds : List (List (String × Json)))
  | vComment (c : IssueComment)
  | vFiles (fs : List CommitFile)
  | vText (s : String)
  | vReviews (rs : List Review)
  | vReview (r : Review)
  | vFlag (b : Bool)

/-- Map the returned value of a `Result`, keeping log and traffic. -/
def mapResult {α β : Type} (f : α → β) (r : Result α) : Result β :=
  ⟨Except.map f r.val, r.log, r.httpCalls, r.libCalls⟩

/-- Run one method invocation on an instance.  The second component is the
instance after the call: the translation of each method body returns `self`
unchanged because no method of the source assigns to any attribute of
`self`. -/
def GithubClient.runOp (lib : LibWorld) (http : Http) (env : Env)
    (self : GithubClient) : Op → Result OpVal × GithubClient
  | .opGetPr pr_id =>
      (mapResult OpVal.vPr (GithubClient.get_pr lib self pr_id), self)
  | .opGetPrComments pr_id =>
      (mapResult OpVal.vComments (GithubClient.get_pr_comments lib self pr_id), self)
  | .opGetComments pr_id =>
      (mapResult OpVal.vDicts (GithubClient.get_comments http env self pr_id), self)
  | .opPostComment pr_id body =>
      (mapResult OpVal.vComment (GithubClient.post_comment lib self pr_id body), self)
  | .opGetCommitFiles commit =>
      (mapResult OpVal.vFiles (GithubClient.get_commit_files lib self commit), self)
  | .opGetFileContent sha fn =>
      (mapResult OpVal.vText (GithubClient.get_file_content lib self sha fn), self)
  | .opGetPrPatch pr_id =>
      (mapResult OpVal.vText (GithubClient.get_pr_patch http env self pr_id), self)
  | .opGetReviews pr_id =>
      (mapResult OpVal.vReviews (GithubClient.get_reviews lib self pr_id), self)
  | .opPostReview pr_id body event =>
      (mapResult OpVal.vReview (GithubClient.post_review lib self pr_id body event), self)
  | .opDismissReview pr_id review_id reason =>
      (mapResult OpVal.vFlag (GithubClient.dismiss_review http env self pr_id review_id reason), self)

/-- Run a sequence of invocations, threading the instance through, and
collect each invocation's outcome. -/
def GithubClient.runSeq (lib : LibWorld) (http : Http) (env : Env)
    (self : GithubClient) : List Op → List (Except Err OpVal)
  | [] => []
  | op :: ops =>
      (GithubClient.runOp lib http env self op).1.val ::
        GithubClient.runSeq lib http env (GithubClient.runOp lib http env self op).2 ops

/-! Concrete worlds and instances, used to evaluate the embedded code on
closed inputs. -/

/-- A concrete environment: both variables set. -/
def env0 : Env := fun k =>
  if k = "GITHUB_TOKEN" then some "env-token"
  else if k = "GITHUB_REPOSITORY" then some "owner/repo"
  else none

/-- A concrete repository handle. -/
def repo0 : Repo := ⟨0⟩

/-- A concrete pull-request handle. -/
def pr0 : PullRequest := ⟨5⟩

/-- A concrete client instance; note its construction token differs from the
GITHUB_TOKEN value in `env0`. -/
def client0 : GithubClient := ⟨⟨"ctor-token"⟩, some "owner/repo", repo0⟩

/-- A second concrete client instance with a different construction token
but the same repository name. -/
def client1 : GithubClient := ⟨⟨"other-token"⟩, some "owner/repo", repo0⟩

/-- A library world where every call succeeds. -/
def libOk : LibWorld where
  getRepo := fun _ _ => .ok repo0
  getPull := fun _ _ => .ok pr0
  getIssueComments := fun _ => .ok [⟨11⟩]
  createIssueComment := fun _ _ => .ok ⟨12⟩
  getReviews := fun _ => .ok [⟨"lgtm", "APPROVE"⟩]
  createReview := fun _ b e => .ok ⟨b, e⟩
  getContents := fun _ _ _ => .ok "file text"
  commitFiles := fun _ => .ok [⟨"a.py"⟩]

/-- A library world where resolving handles succeeds but every second-stage
call raises. -/
def libOuterFail : LibWorld where
  getRepo := fun _ _ => .ok repo0
  getPull := fun _ _ => .ok pr0
  getIssueComments := fun _ => .error (.libError "server error")
  createIssueComment := fun _ _ => .error (.libError "server error")
  getReviews := fun _ => .error (.libError "server error")
  createReview := fun _ _ _ => .error (.libError "server error")
  getContents := fun _ _ _ => .error (.libError "server error")
  commitFiles := fun _ => .error (.libError "server error")

/-- A library world where every call raises. -/
def libFail : LibWorld where
  getRepo := fun _ _ => .error (.libError "bad credentials")
  getPull := fun _ _ => .error (.libError "not found")
  getIssueComments := fun _ => .error (.libError "not found")
  createIssueComment := fun _ _ => .error (.libError "not found")
  getReviews := fun _ => .error (.libError "not found")
  createReview := fun _ _ _ => .error (.libError "not found")
  getContents := fun _ _ _ => .error (.libError "not found")
  commitFiles := fun _ => .error (.libError "not found")

/-- An HTTP world where every request fails at the network level. -/
def httpFail : Http := fun _ => .error (.connectionError "connection refused")

/-- An HTTP world answering every request with the one given response. -/
def httpConst (resp : HttpResponse) : Http := fun _ => .ok resp

/-! Error-propagation lemmas, one per failure point of each operation. -/

/-- When `repo.get_pull` raises, `get_pr` re-raises the same exception. -/
theorem prop_get_pr (lib : LibWorld) (self : GithubClient) (pr_id : Int)
    (e : Err) (h : lib.getPull self.repo pr_id = .error e) :
    (GithubClient.get_pr lib self pr_id).val = .error e := by
  simp [GithubClient.get_pr, h]

/-- When the inner `get_pr` raises, `get_pr_comments` re-raises it. -/
theorem prop_get_pr_comments_inner (lib : LibWorld) (self : GithubClient)
    (pr_id : Int) (e : Err) (h : lib.getPull self.repo pr_id = .error e) :
    (GithubClient.get_pr_comments lib self pr_id).val = .error e := by
  simp [GithubClient.get_pr_comments, GithubClient.get_pr, h]

/-- When `pr.get_issue_comments` raises, `get_pr_comments` re-raises it. -/
theorem prop_get_pr_comments_outer (lib : LibWorld) (self : GithubClient)
    (pr_id : Int) (pr : PullRequest) (e : Err)
    (h1 : lib.getPull self.repo pr_id = .ok pr)
    (h2 : lib.getIssueComments pr = .error e) :
    (GithubClient.get_pr_comments lib self pr_id).val = .error e := by
  simp [GithubClient.get_pr_comments, GithubClient.get_pr, h1, h2]

/-- When the raw GET fails at the network level, `get_comments` re-raises. -/
theorem prop_get_comments_net (http : Http) (env : Env) (self : GithubClient)
    (pr_id : Int) (e : Err)
    (h : http (commentsRequest env self pr_id) = .error e) :
    (GithubClient.get_comments http env self pr_id).val = .error e := by
  simp [GithubClient.get_comments, h]

/-- When the raw GET answers with an error status, `get_comments` raises the
`HTTPError` produced by `raise_for_status`. -/
theorem prop_get_comments_status (http : Http) (env : Env) (self : GithubClient)
    (pr_id : Int) (resp : HttpResponse)
    (h : http (commentsRequest env self pr_id) = .ok resp)
    (hs : 400 ≤ resp.status) :
    (GithubClient.get_comments http env self pr_id).val =
      .error (.httpError resp.status) := by
  simp [GithubClient.get_comments, h, raiseForStatus, hs]

/-- When the inner `get_pr` raises, `post_comment` re-raises it. -/
theorem prop_post_comment_inner (lib : LibWorld) (self : GithubClient)
    (pr_id : Int) (body : String) (e : Err)
    (h : lib.getPull self.repo pr_id = .error e) :
    (GithubClient.post_comment lib self pr_id body).val = .error e := by
  simp [GithubClient.post_comment, GithubClient.get_pr, h]

/-- When `pr.create_issue_comment` raises, `post_comment` re-raises it. -/
theorem prop_post_comment_outer (lib : LibWorld) (self : GithubClient)
    (pr_id : Int) (body : String) (pr : PullRequest) (e : Err)
    (h1 : lib.getPull self.repo pr_id = .ok pr)
    (h2 : lib.createIssueComment pr body = .error e) :
    (GithubClient.post_comment lib self pr_id body).val = .error e := by
  simp [GithubClient.post_comment, GithubClient.get_pr, h1, h2]

/-- When reading `commit.files` raises, `get_commit_files` re-raises it. -/
theorem prop_get_commit_files (lib : LibWorld) (self : GithubClient)
    (commit : Commit) (e : Err) (h : lib.commitFiles commit = .error e) :
    (GithubClient.get_commit_files lib self commit).val = .error e := by
  simp [GithubClient.get_commit_files, h]

/-- When `repo.get_contents` raises, `get_file_content` re-raises it. -/
theorem prop_get_file_content (lib : LibWorld) (self : GithubClient)
    (commit_sha : String) (filename : String) (e : Err)
    (h : lib.getContents self.repo filename commit_sha = .error e) :
    (GithubClient.get_file_content lib self commit_sha filename).val = .error e := by
  simp [GithubClient.get_file_content, h]

/-- When the raw GET fails at the network level, `get_pr_patch` re-raises. -/
theorem prop_get_pr_patch_net (http : Http) (env : Env) (self : GithubClient)
    (pr_id : Int) (e : Err)
    (h : http (patchRequest env self pr_id) = .error e) :
    (GithubClient.get_pr_patch http env self pr_id).val = .error e := by
  simp [GithubClient.get_pr_patch, h]
  split <;> rfl

/-- When the raw GET answers with an error status, `get_pr_patch` raises the
`HTTPError` produced by `raise_for_status`. -/
theorem prop_get_pr_patch_status (http : Http) (env : Env) (self : GithubClient)
    (pr_id : Int) (resp : HttpResponse)
    (h : http (patchRequest env self pr_id) = .ok resp)
    (hs : 400 ≤ resp.status) :
    (GithubClient.get_pr_patch http env self pr_id).val =
      .error (.httpError resp.status) := by
  simp [GithubClient.get_pr_patch, h, raiseForStatus, hs, Err.isRequestException]

/-- When the inner `get_pr` raises, `get_reviews` re-raises it. -/
theorem prop_get_reviews_inner (lib : LibWorld) (self : GithubClient)
    (pr_id : Int) (e : Err) (h : lib.getPull self.repo pr_id = .error e) :
    (GithubClient.get_reviews lib self pr_id).val = .error e := by
  simp [GithubClient.get_reviews, GithubClient.get_pr, h]

/-- When `pr.get_reviews` raises, `get_reviews` re-raises it. -/
theorem prop_get_reviews_outer (lib : LibWorld) (self : GithubClient)
    (pr_id : Int) (pr : PullRequest) (e : Err)
    (h1 : lib.getPull self.repo pr_id = .ok pr)
    (h2 : lib.getReviews pr = .error e) :
    (GithubClient.get_reviews lib self pr_id).val = .error e := by
  simp [GithubClient.get_reviews, GithubClient.get_pr, h1, h2]

/-- When the inner `get_pr` raises, `post_review` re-raises it. -/
theorem prop_post_review_inner (lib : LibWorld) (self : GithubClient)
    (pr_id : Int) (body : String) (event : String) (e : Err)
    (h : lib.getPull self.repo pr_id = .error e) :
    (GithubClient.post_review lib self pr_id body event).val = .error e := by
  simp [GithubClient.post_review, GithubClient.get_pr, h]

/-- When `pr.create_review` raises, `post_review` re-raises it. -/
theorem prop_post_review_outer (lib : LibWorld) (self : GithubClient)
    (pr_id : Int) (body : String) (event : String) (pr : PullRequest) (e : Err)
    (h1 : lib.getPull self.repo pr_id = .ok pr)
    (h2 : lib.createReview pr body event = .error e) :
    (GithubClient.post_review lib self pr_id body event).val = .error e := by
  simp [GithubClient.post_review, GithubClient.get_pr, h1, h2]

/-! Lemmas about the comment-reshaping comprehension. -/

/-- A successful comprehension yields as many dicts as there are elements. -/
theorem mapExcept_ok_length {α β : Type} (f : α → Except Err β) :
    ∀ (xs : List α) (ys : List β), mapExcept f xs = .ok ys →
      ys.length = xs.length := by
  intro xs
  induction xs with
  | nil =>
      intro ys h
      simp [mapExcept] at h
      simp [h.symm]
  | cons x xs ih =>
      intro ys h
      simp only [mapExcept] at h
      cases hf : f x with
      | error e => simp [hf] at h
      | ok y =>
          cases hm : mapExcept f xs with
          | error e => simp [hf, hm] at h
          | ok ys2 =>
              simp [hf, hm] at h
              subst h
              simp [ih ys2 hm]

/-- A successful comprehension applies `f` elementwise, preserving order. -/
theorem mapExcept_ok_get {α β : Type} (f : α → Except Err β) :
    ∀ (xs : List α) (ys : List β), mapExcept f xs = .ok ys →
      ∀ (i : Nat) (h1 : i < xs.length) (h2 : i < ys.length),
        f (xs.get ⟨i, h1⟩) = .ok (ys.get ⟨i, h2⟩) := by
  intro xs
  induction xs with
  | nil =>
      intro ys h i h1 h2
      exact absurd h1 (by simp)
  | cons x xs ih =>
      intro ys h i h1 h2
      simp only [mapExcept] at h
      cases hf : f x with
      | error e => simp [hf] at h
      | ok y =>
          cases hm : mapExcept f xs with
          | error e => simp [hf, hm] at h
          | ok ys2 =>
              simp [hf, hm] at h
              subst h
              cases i with
              | zero => simpa using hf
              | succ n =>
                  simpa using ih ys2 hm n (Nat.lt_of_succ_lt_succ h1)
                    (Nat.lt_of_succ_lt_succ (by simpa using h2))

/-- Inversion of the dict comprehension body: a successful reshape read both
the id field and the body field and produced exactly the two-key dict. -/
theorem reshapeComment_ok (c : Json) (d : List (String × Json))
    (h : reshapeComment c = .ok d) :
    ∃ vi vb, jsonIndex c "id" = .ok vi ∧ jsonIndex c "body" = .ok vb ∧
      d = [("id", vi), ("body", vb)] := by
  unfold reshapeComment at h
  cases hi : jsonIndex c "id" with
  | error e => simp [hi] at h
  | ok vi =>
      cases hb : jsonIndex c "body" with
      | error e => simp [hi, hb] at h
      | ok vb =>
          simp [hi, hb] at h
          exact ⟨vi, vb, rfl, rfl, h.symm⟩

/-- Inversion of a successful `get_comments` call given the raw response:
the JSON body parsed and the comprehension succeeded on it. -/
theorem get_comments_ok_inv (http : Http) (env : Env) (self : GithubClient)
    (pr_id : Int) (resp : HttpResponse) (ds : List (List (String × Json)))
    (hresp : http (commentsRequest env self pr_id) = .ok resp)
    (hok : (GithubClient.get_comments http env self pr_id).val = .ok ds) :
    ∃ comments, pyJson resp = .ok comments ∧
      reshapeComments comments = .ok ds := by
  cases hs : raiseForStatus resp with
  | error e => simp [GithubClient.get_comments, hresp, hs] at hok
  | ok u =>
      cases hj : pyJson resp with
      | error e => simp [GithubClient.get_comments, hresp, hs, hj] at hok
      | ok comments =>
          cases hr : reshapeComments comments with
          | error e => simp [GithubClient.get_comments, hresp, hs, hj, hr] at hok
          | ok ds2 =>
              simp [GithubClient.get_comments, hresp, hs, hj, hr] at hok
              exact ⟨comments, rfl, by simp [hr, hok]⟩

/-! The HTTP traffic of each raw operation is one request, in every branch. -/

/-- `get_comments` issues exactly its one GET request. -/
theorem get_comments_requests (http : Http) (env : Env) (self : GithubClient)
    (pr_id : Int) :
    (GithubClient.get_comments http env self pr_id).httpCalls =
      [commentsRequest env self pr_id] := by
  unfold GithubClient.get_comments
  split <;> (try split) <;> (try split) <;> (try split) <;> rfl

/-- `get_pr_patch` issues exactly its one GET request. -/
theorem get_pr_patch_requests (http : Http) (env : Env) (self : GithubClient)
    (pr_id : Int) :
    (GithubClient.get_pr_patch http env self pr_id).httpCalls =
      [patchRequest env self pr_id] := by
  unfold GithubClient.get_pr_patch
  split <;> (try split) <;> (try split) <;> rfl

/-- `get_comments` emits no log record in any branch: the method contains no
logging call. -/
theorem get_comments_log_empty (http : Http) (env : Env) (self : GithubClient)
    (pr_id : Int) :
    (GithubClient.get_comments http env self pr_id).log = [] := by
  unfold GithubClient.get_comments
  split <;> (try split) <;> (try split) <;> (try split) <;> rfl

/-- `dismiss_review` issues exactly its one POST request. -/
theorem dismiss_review_requests (http : Http) (env : Env) (self : GithubClient)
    (pr_id review_id : Int) (reason : String) :
    (GithubClient.dismiss_review http env self pr_id review_id reason).httpCalls =
      [dismissRequest env self pr_id review_id reason] := by
  unfold GithubClient.dismiss_review
  split <;> (try split) <;> (try split) <;> rfl

/-! Behaviour of `dismiss_review` on each kind of response. -/

/-- A response that `raise_for_status` accepts makes `dismiss_review` return True. -/
theorem dismiss_true_of_ok_status (http : Http) (env : Env) (self : GithubClient)
    (pr_id review_id : Int) (reason : String) (resp : HttpResponse)
    (h : http (dismissRequest env self pr_id review_id reason) = .ok resp)
    (h2 : resp.status < 400) :
    (GithubClient.dismiss_review http env self pr_id review_id reason).val =
      .ok true := by
  simp [GithubClient.dismiss_review, h, raiseForStatus, Nat.not_le.mpr h2]

/-- An error-status response makes `dismiss_review` return False, not raise. -/
theorem dismiss_false_of_error_status (http : Http) (env : Env) (self : GithubClient)
    (pr_id review_id : Int) (reason : String) (resp : HttpResponse)
    (h : http (dismissRequest env self pr_id review_id reason) = .ok resp)
    (hs : 400 ≤ resp.status) :
    (GithubClient.dismiss_review http env self pr_id review_id reason).val =
      .ok false := by
  simp [GithubClient.dismiss_review, h, raiseForStatus, hs, Err.isRequestException]

/-! Claim theorems. -/

/-- C1: For every pr_id and review_id, dismiss_review(pr_id, review_id, reason)
returns true when the remote dismissal POST responds with a 2xx status and
returns false, without raising, when the response carries any HTTP error
status; it is the only operation with swallow-and-report-false semantics:
every other operation propagates its underlying failure as a raised
exception. -/
theorem C1_dismiss_review_swallows_http_errors (http : Http) (env : Env)
    (self : GithubClient) (pr_id review_id : Int) (reason : String) :
    (∀ resp : HttpResponse,
      http (dismissRequest env self pr_id review_id reason) = .ok resp →
      (200 ≤ resp.status → resp.status < 300 →
        (GithubClient.dismiss_review http env self pr_id review_id reason).val =
          .ok true) ∧
      (400 ≤ resp.status →
        (GithubClient.dismiss_review http env self pr_id review_id reason).val =
          .ok false)) ∧
    (∀ lib : LibWorld, ∀ e : Err, lib.getPull self.repo pr_id = .error e →
      (GithubClient.get_pr lib self pr_id).val = .error e ∧
      (GithubClient.get_pr_comments lib self pr_id).val = .error e ∧
      (∀ body, (GithubClient.post_comment lib self pr_id body).val = .error e) ∧
      (GithubClient.get_reviews lib self pr_id).val = .error e ∧
      (∀ body event,
        (GithubClient.post_review lib self pr_id body event).val = .error e)) ∧
    (∀ lib : LibWorld, ∀ commit e, lib.commitFiles commit = .error e →
      (GithubClient.get_commit_files lib self commit).val = .error e) ∧
    (∀ lib : LibWorld, ∀ sha fn e, lib.getContents self.repo fn sha = .error e →
      (GithubClient.get_file_content lib self sha fn).val = .error e) ∧
    (∀ e, http (commentsRequest env self pr_id) = .error e →
      (GithubClient.get_comments http env self pr_id).val = .error e) ∧
    (∀ resp, http (commentsRequest env self pr_id) = .ok resp →
      400 ≤ resp.status →
      (GithubClient.get_comments http env self pr_id).val =
        .error (.httpError resp.status)) ∧
    (∀ e, http (patchRequest env self pr_id) = .error e →
      (GithubClient.get_pr_patch http env self pr_id).val = .error e) ∧
    (∀ resp, http (patchRequest env self pr_id) = .ok resp →
      400 ≤ resp.status →
      (GithubClient.get_pr_patch http env self pr_id).val =
        .error (.httpError resp.status)) := by
  refine ⟨?_, ?_, ?_, ?_, ?_, ?_, ?_, ?_⟩
  · intro resp h
    exact ⟨fun _ h3 => dismiss_true_of_ok_status http env self pr_id review_id
        reason resp h (by omega),
      fun hs => dismiss_false_of_error_status http env self pr_id review_id
        reason resp h hs⟩
  · intro lib e h
    exact ⟨prop_get_pr lib self pr_id e h,
      prop_get_pr_comments_inner lib self pr_id e h,
      fun body => prop_post_comment_inner lib self pr_id body e h,
      prop_get_reviews_inner lib self pr_id e h,
      fun body event => prop_post_review_inner lib self pr_id body event e h⟩
  · exact fun lib commit e h => prop_get_commit_files lib self commit e h
  · exact fun lib sha fn e h => prop_get_file_content lib self sha fn e h
  · exact fun e h => prop_get_comments_net http env self pr_id e h
  · exact fun resp h hs => prop_get_comments_status http env self pr_id resp h hs
  · exact fun e h => prop_get_pr_patch_net http env self pr_id e h
  · exact fun resp h hs => prop_get_pr_patch_status http env self pr_id resp h hs

/-- C1 witness: concrete evaluations of the dismissal contract, obtained by
applying the C1 theorem at a 204 response, at a 404 response, and at a
failing library world. -/
theorem C1_witness :
    (GithubClient.dismiss_review (httpConst ⟨204, "", none⟩) env0 client0
      7 9 "OUT_OF_DATE").val = .ok true ∧
    (GithubClient.dismiss_review (httpConst ⟨404, "", none⟩) env0 client0
      7 9 "OUT_OF_DATE").val = .ok false ∧
    (GithubClient.get_pr libFail client0 7).val = .error (.libError "not found") := by
  refine ⟨?_, ?_, ?_⟩
  · exact ((C1_dismiss_review_swallows_http_errors (httpConst ⟨204, "", none⟩)
      env0 client0 7 9 "OUT_OF_DATE").1 ⟨204, "", none⟩ rfl).1
      (by decide) (by decide)
  · exact ((C1_dismiss_review_swallows_http_errors (httpConst ⟨404, "", none⟩)
      env0 client0 7 9 "OUT_OF_DATE").1 ⟨404, "", none⟩ rfl).2 (by decide)
  · exact ((C1_dismiss_review_swallows_http_errors httpFail env0 client0
      7 9 "OUT_OF_DATE").2.1 libFail (.libError "not found") rfl).1

/-- C5: get_pr_patch(pr_id) issues one GET to /repos/repo/pulls/pr_id with
header Accept: application/vnd.github.v3.diff and a 60-second timeout, and
returns the response body text verbatim; a 404 or 500 response raises an
HTTP error instead of returning a value. -/
theorem C5_get_pr_patch_contract (http : Http) (env : Env) (self : GithubClient)
    (pr_id : Int) :
    (GithubClient.get_pr_patch http env self pr_id).httpCalls =
      [patchRequest env self pr_id] ∧
    (patchRequest env self pr_id).method = "GET" ∧
    (patchRequest env self pr_id).url =
      "https://api.github.com/repos/" ++ optStr self.repo_name ++
        "/pulls/" ++ toString pr_id ∧
    (patchRequest env self pr_id).headers.lookup "Accept" =
      some "application/vnd.github.v3.diff" ∧
    (patchRequest env self pr_id).timeout = some 60 ∧
    (∀ resp : HttpResponse, http (patchRequest env self pr_id) = .ok resp →
      (resp.status < 400 →
        (GithubClient.get_pr_patch http env self pr_id).val = .ok resp.text) ∧
      (resp.status = 404 ∨ resp.status = 500 →
        (GithubClient.get_pr_patch http env self pr_id).val =
          .error (.httpError resp.status))) := by
  refine ⟨get_pr_patch_requests http env self pr_id, rfl, rfl, ?_, rfl, ?_⟩
  · simp [patchRequest, List.lookup]
  · intro resp h
    constructor
    · intro h2
      simp [GithubClient.get_pr_patch, h, raiseForStatus, Nat.not_le.mpr h2]
    · intro h45
      exact prop_get_pr_patch_status http env self pr_id resp h (by omega)

/-- C5 witness: concrete evaluations of the patch contract at a 200 response
and at a 404 response, obtained from the C5 theorem. -/
theorem C5_witness :
    (GithubClient.get_pr_patch (httpConst ⟨200, "diff text", none⟩) env0 client0
      3).val = .ok "diff text" ∧
    (GithubClient.get_pr_patch (httpConst ⟨404, "", none⟩) env0 client0
      3).val = .error (.httpError 404) ∧
    (patchRequest env0 client0 3).url =
      "https://api.github.com/repos/owner/repo/pulls/3" := by
  refine ⟨?_, ?_, ?_⟩
  · exact (((C5_get_pr_patch_contract (httpConst ⟨200, "diff text", none⟩)
      env0 client0 3).2.2.2.2.2 ⟨200, "diff text", none⟩ rfl).1 (by decide))
  · exact (((C5_get_pr_patch_contract (httpConst ⟨404, "", none⟩)
      env0 client0 3).2.2.2.2.2 ⟨404, "", none⟩ rfl).2 (Or.inl rfl))
  · exact (C5_get_pr_patch_contract httpFail env0 client0 3).2.2.1

/-- C10: For every pr_id, the request sent by get_comments(pr_id) carries the
Accept header with the literal value Accept: application/vnd.github+json
(the header name duplicated inside the value), not the plain value
application/vnd.github+json. -/
theorem C10_get_comments_accept_header_duplicated (http : Http) (env : Env)
    (self : GithubClient) (pr_id : Int) :
    (GithubClient.get_comments http env self pr_id).httpCalls =
      [commentsRequest env self pr_id] ∧
    (commentsRequest env self pr_id).headers.lookup "Accept" =
      some "Accept: application/vnd.github+json" ∧
    (("Accept: application/vnd.github+json" : String) ==
      "application/vnd.github+json") = false := by
  refine ⟨get_comments_requests http env self pr_id, ?_, by decide⟩
  simp [commentsRequest, List.lookup]

/-- C2: For every pr_id, get_comments(pr_id) returns a sequence in which each
element is a dictionary with exactly the two keys id and body, whose values
equal the id and body fields of the corresponding element of the raw API
JSON array, and the elements appear in the same order as in that array. -/
theorem C2_get_comments_reshapes_id_body (http : Http) (env : Env)
    (self : GithubClient) (pr_id : Int) (resp : HttpResponse)
    (elems : List Json) (ds : List (List (String × Json)))
    (hresp : http (commentsRequest env self pr_id) = .ok resp)
    (hjson : resp.json = some (.arr elems))
    (hok : (GithubClient.get_comments http env self pr_id).val = .ok ds) :
    ds.length = elems.length ∧
    ∀ (i : Nat) (h1 : i < elems.length) (h2 : i < ds.length),
      ∃ vi vb, jsonIndex (elems.get ⟨i, h1⟩) "id" = .ok vi ∧
        jsonIndex (elems.get ⟨i, h1⟩) "body" = .ok vb ∧
        ds.get ⟨i, h2⟩ = [("id", vi), ("body", vb)] := by
  obtain ⟨comments, hpy, hrs⟩ :=
    get_comments_ok_inv http env self pr_id resp ds hresp hok
  have hc : comments = .arr elems := by
    simp [pyJson, hjson] at hpy
    exact hpy.symm
  subst hc
  simp only [reshapeComments, pyIter] at hrs
  refine ⟨mapExcept_ok_length reshapeComment elems ds hrs, ?_⟩
  intro i h1 h2
  exact reshapeComment_ok _ _ (mapExcept_ok_get reshapeComment elems ds hrs i h1 h2)

/-- C2 witness: the reshaping property evaluated on a concrete two-element
response body, obtained from the C2 theorem. -/
theorem C2_witness :
    (GithubClient.get_comments
        (httpConst ⟨200, "",
          some (.arr [.obj [("id", .num 1), ("body", .str "first")],
                      .obj [("body", .str "second"), ("id", .num 2),
                            ("user", .str "x")]])⟩)
        env0 client0 3).val =
      .ok [[("id", .num 1), ("body", .str "first")],
           [("id", .num 2), ("body", .str "second")]] ∧
    ([[("id", Json.num 1), ("body", Json.str "first")],
      [("id", Json.num 2), ("body", Json.str "second")]].length =
      [Json.obj [("id", .num 1), ("body", .str "first")],
       Json.obj [("body", .str "second"), ("id", .num 2),
                 ("user", .str "x")]].length ∧
     ∀ (i : Nat)
       (h1 : i < [Json.obj [("id", .num 1), ("body", .str "first")],
                  Json.obj [("body", .str "second"), ("id", .num 2),
                            ("user", .str "x")]].length)
       (h2 : i < [[("id", Json.num 1), ("body", Json.str "first")],
                  [("id", Json.num 2), ("body", Json.str "second")]].length),
       ∃ vi vb,
         jsonIndex ([Json.obj [("id", .num 1), ("body", .str "first")],
                     Json.obj [("body", .str "second"), ("id", .num 2),
                               ("user", .str "x")]].get ⟨i, h1⟩) "id" = .ok vi ∧
         jsonIndex ([Json.obj [("id", .num 1), ("body", .str "first")],
                     Json.obj [("body", .str "second"), ("id", .num 2),
                               ("user", .str "x")]].get ⟨i, h1⟩) "body" = .ok vb ∧
         [[("id", Json.num 1), ("body", Json.str "first")],
          [("id", Json.num 2), ("body", Json.str "second")]].get ⟨i, h2⟩ =
           [("id", vi), ("body", vb)]) := by
  refine ⟨rfl, ?_⟩
  exact C2_get_comments_reshapes_id_body
    (httpConst ⟨200, "",
      some (.arr [.obj [("id", .num 1), ("body", .str "first")],
                  .obj [("body", .str "second"), ("id", .num 2),
                        ("user", .str "x")]])⟩)
    env0 client0 3
    ⟨200, "",
      some (.arr [.obj [("id", .num 1), ("body", .str "first")],
                  .obj [("body", .str "second"), ("id", .num 2),
                        ("user", .str "x")]])⟩
    [.obj [("id", .num 1), ("body", .str "first")],
     .obj [("body", .str "second"), ("id", .num 2), ("user", .str "x")]]
    [[("id", .num 1), ("body", .str "first")],
     [("id", .num 2), ("body", .str "second")]]
    rfl rfl rfl

/-- C3: For every operation other than dismiss_review, any failure of the
underlying call — network failure, auth failure, not-found, or non-2xx
status — surfaces to the caller as a raised exception, never as a silently
returned false or None. -/
theorem C3_failures_raise (lib : LibWorld) (http : Http) (env : Env)
    (self : GithubClient) (pr_id : Int) :
    (∀ e : Err, lib.getPull self.repo pr_id = .error e →
      (GithubClient.get_pr lib self pr_id).val = .error e ∧
      (GithubClient.get_pr_comments lib self pr_id).val = .error e ∧
      (∀ body, (GithubClient.post_comment lib self pr_id body).val = .error e) ∧
      (GithubClient.get_reviews lib self pr_id).val = .error e ∧
      (∀ body event,
        (GithubClient.post_review lib self pr_id body event).val = .error e)) ∧
    (∀ pr e, lib.getPull self.repo pr_id = .ok pr →
      (lib.getIssueComments pr = .error e →
        (GithubClient.get_pr_comments lib self pr_id).val = .error e) ∧
      (∀ body, lib.createIssueComment pr body = .error e →
        (GithubClient.post_comment lib self pr_id body).val = .error e) ∧
      (lib.getReviews pr = .error e →
        (GithubClient.get_reviews lib self pr_id).val = .error e) ∧
      (∀ body event, lib.createReview pr body event = .error e →
        (GithubClient.post_review lib self pr_id body event).val = .error e)) ∧
    (∀ commit e, lib.commitFiles commit = .error e →
      (GithubClient.get_commit_files lib self commit).val = .error e) ∧
    (∀ sha fn e, lib.getContents self.repo fn sha = .error e →
      (GithubClient.get_file_content lib self sha fn).val = .error e) ∧
    (∀ e, http (commentsRequest env self pr_id) = .error e →
      (GithubClient.get_comments http env self pr_id).val = .error e) ∧
    (∀ resp, http (commentsRequest env self pr_id) = .ok resp →
      400 ≤ resp.status →
      (GithubClient.get_comments http env self pr_id).val =
        .error (.httpError resp.status)) ∧
    (∀ e, http (patchRequest env self pr_id) = .error e →
      (GithubClient.get_pr_patch http env self pr_id).val = .error e) ∧
    (∀ resp, http (patchRequest env self pr_id) = .ok resp →
      400 ≤ resp.status →
      (GithubClient.get_pr_patch http env self pr_id).val =
        .error (.httpError resp.status)) := by
  refine ⟨?_, ?_, ?_, ?_, ?_, ?_, ?_, ?_⟩
  · intro e h
    exact ⟨prop_get_pr lib self pr_id e h,
      prop_get_pr_comments_inner lib self pr_id e h,
      fun body => prop_post_comment_inner lib self pr_id body e h,
      prop_get_reviews_inner lib self pr_id e h,
      fun body event => prop_post_review_inner lib self pr_id body event e h⟩
  · intro pr e h1
    exact ⟨fun h2 => prop_get_pr_comments_outer lib self pr_id pr e h1 h2,
      fun body h2 => prop_post_comment_outer lib self pr_id body pr e h1 h2,
      fun h2 => prop_get_reviews_outer lib self pr_id pr e h1 h2,
      fun body event h2 =>
        prop_post_review_outer lib self pr_id body event pr e h1 h2⟩
  · exact fun commit e h => prop_get_commit_files lib self commit e h
  · exact fun sha fn e h => prop_get_file_content lib self sha fn e h
  · exact fun e h => prop_get_comments_net http env self pr_id e h
  · exact fun resp h hs => prop_get_comments_status http env self pr_id resp h hs
  · exact fun e h => prop_get_pr_patch_net http env self pr_id e h
  · exact fun resp h hs => prop_get_pr_patch_status http env self pr_id resp h hs

/-- C3 witness: concrete raised-not-swallowed outcomes, obtained from the C3
theorem at a failing library world and a failing network. -/
theorem C3_witness :
    (GithubClient.get_pr_comments libFail client0 7).val =
      .error (.libError "not found") ∧
    (GithubClient.get_comments httpFail env0 client0 7).val =
      .error (.connectionError "connection refused") ∧
    (GithubClient.get_pr_patch (httpConst ⟨500, "", none⟩) env0 client0 7).val =
      .error (.httpError 500) := by
  refine ⟨?_, ?_, ?_⟩
  · exact ((C3_failures_raise libFail httpFail env0 client0 7).1
      (.libError "not found") rfl).2.1
  · exact (C3_failures_raise libFail httpFail env0 client0 7).2.2.2.2.1
      (.connectionError "connection refused") rfl
  · exact (C3_failures_raise libFail (httpConst ⟨500, "", none⟩) env0 client0
      7).2.2.2.2.2.2.2 ⟨500, "", none⟩ rfl (by decide)

/-- C4 counterexample: at a concrete network failure, get_comments re-raises
the exception but its log is empty — the method has no try/except and no
logging call — refuting the claim that every listed operation logs its
exception with operation context before re-raising. -/
theorem C4_counterexample_get_comments_unlogged :
    (GithubClient.get_comments httpFail env0 client0 3).val =
      .error (.connectionError "connection refused") ∧
    (GithubClient.get_comments httpFail env0 client0 3).log = [] :=
  ⟨rfl, rfl⟩

/-- C4 amended: for get_pr, get_pr_comments, post_comment, get_commit_files,
get_file_content, get_reviews and post_review, any exception raised at
either stage of the call — the inner get_pr as well as the second library
call — is logged with operation context and re-raised unchanged; for
get_pr_patch the same holds for every request-level exception and for every
HTTP error status; get_comments, however, re-raises unchanged and logs
nothing in any circumstance. -/
theorem C4_logging_amended (lib : LibWorld) (http : Http) (env : Env)
    (self : GithubClient) (pr_id : Int) (e : Err) :
    (lib.getPull self.repo pr_id = .error e →
      (GithubClient.get_pr lib self pr_id).val = .error e ∧
      LogEntry.error ("Error retrieving PR ID " ++ toString pr_id ++ ": " ++
          errMsg e) ∈ (GithubClient.get_pr lib self pr_id).log ∧
      (GithubClient.get_pr_comments lib self pr_id).val = .error e ∧
      LogEntry.error ("Error retrieving comments for PR ID " ++ toString pr_id ++
          ": " ++ errMsg e) ∈ (GithubClient.get_pr_comments lib self pr_id).log ∧
      (∀ body, (GithubClient.post_comment lib self pr_id body).val = .error e ∧
        LogEntry.error ("Error posting comment to PR ID " ++ toString pr_id ++
            ": " ++ errMsg e) ∈ (GithubClient.post_comment lib self pr_id body).log) ∧
      (GithubClient.get_reviews lib self pr_id).val = .error e ∧
      LogEntry.error ("Error retrieving reviews for PR ID " ++ toString pr_id ++
          ": " ++ errMsg e) ∈ (GithubClient.get_reviews lib self pr_id).log ∧
      (∀ body event,
        (GithubClient.post_review lib self pr_id body event).val = .error e ∧
        LogEntry.error ("Error posting " ++ event.toLower ++
            " review to PR ID " ++ toString pr_id ++ ": " ++ errMsg e) ∈
          (GithubClient.post_review lib self pr_id body event).log)) ∧
    (∀ pr, lib.getPull self.repo pr_id = .ok pr →
      (lib.getIssueComments pr = .error e →
        (GithubClient.get_pr_comments lib self pr_id).val = .error e ∧
        LogEntry.error ("Error retrieving comments for PR ID " ++
            toString pr_id ++ ": " ++ errMsg e) ∈
          (GithubClient.get_pr_comments lib self pr_id).log) ∧
      (∀ body, lib.createIssueComment pr body = .error e →
        (GithubClient.post_comment lib self pr_id body).val = .error e ∧
        LogEntry.error ("Error posting comment to PR ID " ++ toString pr_id ++
            ": " ++ errMsg e) ∈
          (GithubClient.post_comment lib self pr_id body).log) ∧
      (lib.getReviews pr = .error e →
        (GithubClient.get_reviews lib self pr_id).val = .error e ∧
        LogEntry.error ("Error retrieving reviews for PR ID " ++
            toString pr_id ++ ": " ++ errMsg e) ∈
          (GithubClient.get_reviews lib self pr_id).log) ∧
      (∀ body event, lib.createReview pr body event = .error e →
        (GithubClient.post_review lib self pr_id body event).val = .error e ∧
        LogEntry.error ("Error posting " ++ event.toLower ++
            " review to PR ID " ++ toString pr_id ++ ": " ++ errMsg e) ∈
          (GithubClient.post_review lib self pr_id body event).log)) ∧
    (∀ commit, lib.commitFiles commit = .error e →
      (GithubClient.get_commit_files lib self commit).val = .error e ∧
      LogEntry.error ("Error retrieving files for commit " ++ commit.sha ++
          ": " ++ errMsg e) ∈ (GithubClient.get_commit_files lib self commit).log) ∧
    (∀ sha fn, lib.getContents self.repo fn sha = .error e →
      (GithubClient.get_file_content lib self sha fn).val = .error e ∧
      LogEntry.error ("Error retrieving content for file " ++ fn ++
          " at commit " ++ sha ++ ": " ++ errMsg e) ∈
        (GithubClient.get_file_content lib self sha fn).log) ∧
    (http (patchRequest env self pr_id) = .error e →
      e.isRequestException = true →
      (GithubClient.get_pr_patch http env self pr_id).val = .error e ∧
      LogEntry.error ("Error retrieving patch for PR ID " ++ toString pr_id ++
          ": " ++ errMsg e) ∈ (GithubClient.get_pr_patch http env self pr_id).log) ∧
    (∀ resp, http (patchRequest env self pr_id) = .ok resp →
      400 ≤ resp.status →
      (GithubClient.get_pr_patch http env self pr_id).val =
        .error (.httpError resp.status) ∧
      LogEntry.error ("Error retrieving patch for PR ID " ++ toString pr_id ++
          ": " ++ errMsg (.httpError resp.status)) ∈
        (GithubClient.get_pr_patch http env self pr_id).log) ∧
    ((GithubClient.get_comments http env self pr_id).log = [] ∧
     (http (commentsRequest env self pr_id) = .error e →
       (GithubClient.get_comments http env self pr_id).val = .error e) ∧
     (∀ resp, http (commentsRequest env self pr_id) = .ok resp →
       400 ≤ resp.status →
       (GithubClient.get_comments http env self pr_id).val =
         .error (.httpError resp.status))) := by
  refine ⟨?_, ?_, ?_, ?_, ?_, ?_, ?_⟩
  · intro h
    refine ⟨prop_get_pr lib self pr_id e h, ?_,
      prop_get_pr_comments_inner lib self pr_id e h, ?_,
      fun body => ⟨prop_post_comment_inner lib self pr_id body e h, ?_⟩,
      prop_get_reviews_inner lib self pr_id e h, ?_,
      fun body event =>
        ⟨prop_post_review_inner lib self pr_id body event e h, ?_⟩⟩
    · simp [GithubClient.get_pr, h]
    · simp [GithubClient.get_pr_comments, GithubClient.get_pr, h]
    · simp [GithubClient.post_comment, GithubClient.get_pr, h]
    · simp [GithubClient.get_reviews, GithubClient.get_pr, h]
    · simp [GithubClient.post_review, GithubClient.get_pr, h]
  · intro pr h1
    refine ⟨fun h2 => ⟨prop_get_pr_comments_outer lib self pr_id pr e h1 h2, ?_⟩,
      fun body h2 => ⟨prop_post_comment_outer lib self pr_id body pr e h1 h2, ?_⟩,
      fun h2 => ⟨prop_get_reviews_outer lib self pr_id pr e h1 h2, ?_⟩,
      fun body event h2 =>
        ⟨prop_post_review_outer lib self pr_id body event pr e h1 h2, ?_⟩⟩
    · simp [GithubClient.get_pr_comments, GithubClient.get_pr, h1, h2]
    · simp [GithubClient.post_comment, GithubClient.get_pr, h1, h2]
    · simp [GithubClient.get_reviews, GithubClient.get_pr, h1, h2]
    · simp [GithubClient.post_review, GithubClient.get_pr, h1, h2]
  · intro commit h
    exact ⟨prop_get_commit_files lib self commit e h,
      by simp [GithubClient.get_commit_files, h]⟩
  · intro sha fn h
    exact ⟨prop_get_file_content lib self sha fn e h,
      by simp [GithubClient.get_file_content, h]⟩
  · intro h hreq
    exact ⟨prop_get_pr_patch_net http env self pr_id e h,
      by simp [GithubClient.get_pr_patch, h, hreq]⟩
  · intro resp h hs
    exact ⟨prop_get_pr_patch_status http env self pr_id resp h hs,
      by simp [GithubClient.get_pr_patch, h, raiseForStatus, hs,
        Err.isRequestException]⟩
  · exact ⟨get_comments_log_empty http env self pr_id,
      fun h => prop_get_comments_net http env self pr_id e h,
      fun resp h hs => prop_get_comments_status http env self pr_id resp h hs⟩

/-- C4 witness: concrete logged-and-reraised outcomes from the amended
theorem — an inner-stage failure, a second-stage failure, a network failure
of the patch fetch, and the empty get_comments log. -/
theorem C4_witness :
    ((GithubClient.get_pr libFail client0 7).val =
      .error (.libError "not found") ∧
     LogEntry.error "Error retrieving PR ID 7: not found" ∈
      (GithubClient.get_pr libFail client0 7).log) ∧
    ((GithubClient.get_pr_comments libOuterFail client0 7).val =
      .error (.libError "server error") ∧
     LogEntry.error "Error retrieving comments for PR ID 7: server error" ∈
      (GithubClient.get_pr_comments libOuterFail client0 7).log) ∧
    ((GithubClient.get_pr_patch httpFail env0 client0 7).val =
      .error (.connectionError "connection refused") ∧
     LogEntry.error
        "Error retrieving patch for PR ID 7: ConnectionError: connection refused" ∈
      (GithubClient.get_pr_patch httpFail env0 client0 7).log) ∧
    (GithubClient.get_comments httpFail env0 client0 7).log = [] := by
  refine ⟨⟨?_, ?_⟩, ?_, ?_, ?_⟩
  · exact ((C4_logging_amended libFail httpFail env0 client0 7
      (.libError "not found")).1 rfl).1
  · exact ((C4_logging_amended libFail httpFail env0 client0 7
      (.libError "not found")).1 rfl).2.1
  · exact ((C4_logging_amended libOuterFail httpFail env0 client0 7
      (.libError "server error")).2.1 pr0 rfl).1 rfl
  · exact (C4_logging_amended libFail httpFail env0 client0 7
      (.connectionError "connection refused")).2.2.2.2.1 rfl rfl
  · exact (C4_logging_amended libFail httpFail env0 client0 7
      (.libError "not found")).2.2.2.2.2.2.1

/-- C6: post_review(pr_id, body, event) forwards the event string unchanged
to the review-creation call, the created review handle is returned as the
library produced it, and when event is omitted it defaults to COMMENT. -/
theorem C6_post_review_event_forwarding (lib : LibWorld) (self : GithubClient)
    (pr_id : Int) (body event : String) :
    (∀ pr, lib.getPull self.repo pr_id = .ok pr →
      LibCall.createReview pr body event ∈
        (GithubClient.post_review lib self pr_id body event).libCalls ∧
      (∀ rv, lib.createReview pr body event = .ok rv →
        (GithubClient.post_review lib self pr_id body event).val = .ok rv)) ∧
    GithubClient.post_review_default lib self pr_id body =
      GithubClient.post_review lib self pr_id body "COMMENT" := by
  refine ⟨?_, rfl⟩
  intro pr h1
  constructor
  · cases hcr : lib.createReview pr body event <;>
      simp [GithubClient.post_review, GithubClient.get_pr, h1, hcr]
  · intro rv h2
    simp [GithubClient.post_review, GithubClient.get_pr, h1, h2]

/-- C6 witness: the forwarded APPROVE event observed concretely, obtained
from the C6 theorem at a succeeding library world. -/
theorem C6_witness :
    LibCall.createReview pr0 "nice" "APPROVE" ∈
      (GithubClient.post_review libOk client0 7 "nice" "APPROVE").libCalls ∧
    (GithubClient.post_review libOk client0 7 "nice" "APPROVE").val =
      .ok ⟨"nice", "APPROVE"⟩ := by
  refine ⟨?_, ?_⟩
  · exact ((C6_post_review_event_forwarding libOk client0 7 "nice"
      "APPROVE").1 pr0 rfl).1
  · exact ((C6_post_review_event_forwarding libOk client0 7 "nice"
      "APPROVE").1 pr0 rfl).2 ⟨"nice", "APPROVE"⟩ rfl

/-- C7: Construction with a token reads the repository name from the
environment variable GITHUB_REPOSITORY and resolves a handle to that
repository; if repository resolution fails the constructor raises and no
partial or degraded client instance is returned. -/
theorem C7_constructor_contract (lib : LibWorld) (env : Env) (token : String) :
    (∀ repo, lib.getRepo ⟨token⟩ (env "GITHUB_REPOSITORY") = .ok repo →
      (GithubClient.init lib env token).val =
        .ok ⟨⟨token⟩, env "GITHUB_REPOSITORY", repo⟩) ∧
    (∀ e, lib.getRepo ⟨token⟩ (env "GITHUB_REPOSITORY") = .error e →
      (GithubClient.init lib env token).val = .error e) := by
  constructor
  · intro repo h
    simp [GithubClient.init, h]
  · intro e h
    simp [GithubClient.init, h]

/-- C7 witness: concrete construction outcomes from the C7 theorem, at a
succeeding and at a failing library world. -/
theorem C7_witness :
    (GithubClient.init libOk env0 "ctor-token").val =
      .ok ⟨⟨"ctor-token"⟩, some "owner/repo", repo0⟩ ∧
    (GithubClient.init libFail env0 "ctor-token").val =
      .error (.libError "bad credentials") := by
  refine ⟨?_, ?_⟩
  · exact (C7_constructor_contract libOk env0 "ctor-token").1 repo0 rfl
  · exact (C7_constructor_contract libFail env0 "ctor-token").2
      (.libError "bad credentials") rfl

/-- C8: Every raw-HTTP operation (get_comments, get_pr_patch, dismiss_review)
sends the header Authorization: token t, where t is read from the
environment variable GITHUB_TOKEN at call time; the constructor-supplied
token plays no part in the request, so the two credential sources may
differ. -/
theorem C8_raw_calls_env_token_auth (http : Http) (env : Env)
    (self other : GithubClient) (pr_id review_id : Int) (reason : String) :
    (GithubClient.get_comments http env self pr_id).httpCalls =
      [commentsRequest env self pr_id] ∧
    (GithubClient.get_pr_patch http env self pr_id).httpCalls =
      [patchRequest env self pr_id] ∧
    (GithubClient.dismiss_review http env self pr_id review_id reason).httpCalls =
      [dismissRequest env self pr_id review_id reason] ∧
    (commentsRequest env self pr_id).headers.lookup "Authorization" =
      some ("token " ++ optStr (env "GITHUB_TOKEN")) ∧
    (patchRequest env self pr_id).headers.lookup "Authorization" =
      some ("token " ++ optStr (env "GITHUB_TOKEN")) ∧
    (dismissRequest env self pr_id review_id reason).headers.lookup
        "Authorization" =
      some ("token " ++ optStr (env "GITHUB_TOKEN")) ∧
    (self.repo_name = other.repo_name →
      commentsRequest env self pr_id = commentsRequest env other pr_id ∧
      patchRequest env self pr_id = patchRequest env other pr_id ∧
      dismissRequest env self pr_id review_id reason =
        dismissRequest env other pr_id review_id reason) := by
  refine ⟨get_comments_requests http env self pr_id,
    get_pr_patch_requests http env self pr_id,
    dismiss_review_requests http env self pr_id review_id reason,
    by simp [commentsRequest, List.lookup],
    by simp [patchRequest, List.lookup],
    by simp [dismissRequest, List.lookup], ?_⟩
  intro h
  exact ⟨by simp [commentsRequest, h], by simp [patchRequest, h],
    by simp [dismissRequest, h]⟩

/-- C8 witness: with two clients built from different tokens but the same
repository name, the raw requests coincide and carry the env token,
obtained from the C8 theorem. -/
theorem C8_witness :
    commentsRequest env0 client0 3 = commentsRequest env0 client1 3 ∧
    patchRequest env0 client0 3 = patchRequest env0 client1 3 ∧
    dismissRequest env0 client0 3 9 "OUT_OF_DATE" =
      dismissRequest env0 client1 3 9 "OUT_OF_DATE" ∧
    (commentsRequest env0 client0 3).headers.lookup "Authorization" =
      some "token env-token" := by
  refine ⟨?_, ?_, ?_, ?_⟩
  · exact ((C8_raw_calls_env_token_auth httpFail env0 client0 client1 3 9
      "OUT_OF_DATE").2.2.2.2.2.2 rfl).1
  · exact ((C8_raw_calls_env_token_auth httpFail env0 client0 client1 3 9
      "OUT_OF_DATE").2.2.2.2.2.2 rfl).2.1
  · exact ((C8_raw_calls_env_token_auth httpFail env0 client0 client1 3 9
      "OUT_OF_DATE").2.2.2.2.2.2 rfl).2.2
  · exact (C8_raw_calls_env_token_auth httpFail env0 client0 client1 3 9
      "OUT_OF_DATE").2.2.2.1

/-- C9: Every operation leaves the client's local state unchanged — the
instance after any call is exactly the instance fixed at construction — and
the outcome of each call in a sequence does not depend on which calls
preceded it: running a sequence splits pointwise. -/
theorem C9_operations_stateless (lib : LibWorld) (http : Http) (env : Env)
    (self : GithubClient) (op : Op) (ops1 ops2 : List Op) :
    (GithubClient.runOp lib http env self op).2 = self ∧
    GithubClient.runSeq lib http env self (ops1 ++ ops2) =
      GithubClient.runSeq lib http env self ops1 ++
        GithubClient.runSeq lib http env self ops2 := by
  have frame : ∀ o, (GithubClient.runOp lib http env self o).2 = self := by
    intro o
    cases o <;> rfl
  refine ⟨frame op, ?_⟩
  induction ops1 with
  | nil => simp [GithubClient.runSeq]
  | cons o os ih => simp [GithubClient.runSeq, frame o, ih]

end GhSpec
